import Mathlib

/-!
Verification of the design-pattern demonstration repository
(Adapter, Builder, Observer, Strategy applied to a toy LLM-query domain).

Each Python class is shallowly embedded: pure methods become Lean
functions, mutating methods become functions returning the updated
object, and calls that may raise become Except-valued functions.
Python float fields carry no arithmetic here, so they are modelled
exactly as rationals; Python ints as Int.
-/

/-! ## Builder example (src/builder.py) -/

/-- The immutable Query object produced by the builder: prompt text,
temperature and max-token count (Query.s of builder.py). -/
structure Query where
  prompt : String
  temperature : ℚ
  max_tokens : Int
deriving DecidableEq

/-- One few-shot example, the dict with keys "input" and "output" appended
by QueryBuilder.add_example. -/
structure Example where
  input : String
  output : String
deriving DecidableEq

/-- The mutable accumulator state of QueryBuilder: prompt, temperature,
max_tokens and the ordered example list. -/
structure QueryBuilder where
  prompt : String
  temperature : ℚ
  max_tokens : Int
  examples : List Example
deriving DecidableEq

/-- QueryBuilder.\_\_init\_\_: prompt "", temperature 1.0, max_tokens 100,
empty example list. -/
def QueryBuilder.init : QueryBuilder :=
  ⟨"", 1, 100, []⟩

/-- QueryBuilder.set_prompt: assigns the prompt field and returns self. -/
def QueryBuilder.set_prompt (self : QueryBuilder) (p : String) : QueryBuilder :=
  ⟨p, self.temperature, self.max_tokens, self.examples⟩

/-- QueryBuilder.set_temperature: assigns the temperature field and returns self. -/
def QueryBuilder.set_temperature (self : QueryBuilder) (t : ℚ) : QueryBuilder :=
  ⟨self.prompt, t, self.max_tokens, self.examples⟩

/-- QueryBuilder.set_max_tokens: assigns the max_tokens field and returns self. -/
def QueryBuilder.set_max_tokens (self : QueryBuilder) (m : Int) : QueryBuilder :=
  ⟨self.prompt, self.temperature, m, self.examples⟩

/-- QueryBuilder.add_example: appends the (input, output) dict to the
example list and returns self. -/
def QueryBuilder.add_example (self : QueryBuilder) (i o : String) : QueryBuilder :=
  ⟨self.prompt, self.temperature, self.max_tokens, self.examples ++ [⟨i, o⟩]⟩

/-- Python str.join: the separator is placed between consecutive list
elements; the empty list joins to "". Models the "\n\n".join call in
QueryBuilder.build. -/
def strJoin (sep : String) : List String → String
  | [] => ""
  | [x] => x
  | x :: y :: rest => x ++ sep ++ strJoin sep (y :: rest)

/-- The f-string rendering one example inside QueryBuilder.build:
"Input: {input}\nOutput: {output}". -/
def renderExample (ex : Example) : String :=
  "Input: " ++ ex.input ++ "\nOutput: " ++ ex.output

/-- QueryBuilder.build: if the example list is nonempty, join the rendered
examples with blank lines and append the real prompt as an Input line with
an empty Output line; otherwise pass the prompt through unchanged.
Returns the built Query with the current temperature and max_tokens. -/
def QueryBuilder.build (self : QueryBuilder) : Query :=
  if self.examples.isEmpty then
    ⟨self.prompt, self.temperature, self.max_tokens⟩
  else
    ⟨strJoin "\n\n" (self.examples.map renderExample) ++
       "\n\nInput: " ++ self.prompt ++ "\nOutput:", self.temperature, self.max_tokens⟩

/-- The explicit state-passing form of QueryBuilder.build: the method body
of build assigns to no field of self, so its post-state is self unchanged
and its value is the built Query. -/
def QueryBuilder.buildS (self : QueryBuilder) : Query × QueryBuilder :=
  (self.build, self)

/-- The few-shot sample of the build few-shot test: examples
("Q1","A1"), ("Q2","A2") in that order and prompt "Q3". -/
def fewShotB : QueryBuilder :=
  ((QueryBuilder.init.add_example "Q1" "A1").add_example "Q2" "A2").set_prompt "Q3"

/-- Spec-side rendering of a nonempty example block, written from the
spec words: each example is the two lines "Input: ..." and "Output: ...",
consecutive examples are separated by a blank line. -/
def specExampleBlock : List Example → String
  | [] => ""
  | [ex] => "Input: " ++ ex.input ++ "\nOutput: " ++ ex.output
  | ex :: ex2 :: rest =>
      ("Input: " ++ ex.input ++ "\nOutput: " ++ ex.output) ++ "\n\n" ++
        specExampleBlock (ex2 :: rest)

theorem strJoin_eq_specExampleBlock (l : List Example) :
    strJoin "\n\n" (l.map renderExample) = specExampleBlock l := by
  match l with
  | [] => rfl
  | [ex] => rfl
  | ex :: ex2 :: rest =>
      have ih := strJoin_eq_specExampleBlock (ex2 :: rest)
      simp only [List.map_cons] at ih
      simp only [List.map_cons, strJoin, specExampleBlock]
      rw [ih]
      rfl

/-! ## Adapter example (src/adapter.py)

A Python target object is embedded by its attribute table: the partial
map sending a method name to the method it exposes under that name (the
semantics of getattr). A name outside the table makes getattr raise
AttributeError, embedded as Except.error. -/

/-- OpenAIModel: holds the model name set at construction. -/
structure OpenAIModel where
  openai_model_name : String

/-- OpenAIModel.query: formats the canned response string (the source
text carries a stray closing parenthesis, kept as is). -/
def OpenAIModel.query (self : OpenAIModel) (prompt : String) : String :=
  "OpenAI response to: " ++ prompt ++ ")"

/-- The attribute table of an OpenAIModel instance restricted to its
callable methods: it exposes exactly the method named "query". -/
def OpenAIModel.attrs (self : OpenAIModel) : String → Option (String → String)
  | "query" => some self.query
  | _ => none

/-- HuggingFaceModel: holds the model name and quantization method set
at construction. -/
structure HuggingFaceModel where
  model_name : String
  quantization_method : String

/-- HuggingFaceModel.generate: formats the canned response string (with
the same stray closing parenthesis as the source). -/
def HuggingFaceModel.generate (self : HuggingFaceModel) (prompt : String) : String :=
  "HuggingFace response to: " ++ prompt ++ ")"

/-- The attribute table of a HuggingFaceModel instance restricted to its
callable methods: it exposes exactly the method named "generate". -/
def HuggingFaceModel.attrs (self : HuggingFaceModel) : String → Option (String → String)
  | "generate" => some self.generate
  | _ => none

/-- ModelAdapter: holds the target object (as its attribute table over
result type A) and the name of the method to invoke. -/
structure ModelAdapter (A : Type) where
  model : String → Option (String → A)
  query_method : String

/-- ModelAdapter.query: getattr(self.model, self.query_method)(text) —
look the method name up on the target and call it; a missing name makes
getattr raise AttributeError, embedded as Except.error. -/
def ModelAdapter.query (self : ModelAdapter A) (text : String) : Except String A :=
  match self.model self.query_method with
  | some f => Except.ok (f text)
  | none => Except.error ("AttributeError: missing capability " ++ self.query_method)

/-! ## Observer example (src/observer.py)

Listener objects are a type parameter L with decidable equality (Python
compares list elements with == when removing). notify is embedded by its
call trace: the list of (observer, payload) pairs, one per update call,
in the order the calls are made. -/

/-- LLMOutputNotifier: holds the ordered observer list. -/
structure LLMOutputNotifier (L : Type) where
  observers : List L

/-- LLMOutputNotifier.\_\_init\_\_: the observer list starts empty. -/
def LLMOutputNotifier.init : LLMOutputNotifier L :=
  ⟨[]⟩

/-- LLMOutputNotifier.add_observer: appends the observer to the list and
returns the updated state. -/
def LLMOutputNotifier.add_observer (self : LLMOutputNotifier L) (observer : L) :
    LLMOutputNotifier L :=
  ⟨self.observers ++ [observer]⟩

/-- Python list.remove: deletes the first element equal to the argument;
returns none (ValueError) when no element matches. -/
def listRemove [DecidableEq L] : List L → L → Option (List L)
  | [], _ => none
  | x :: xs, o => if x = o then some xs else (listRemove xs o).map (fun l => x :: l)

/-- LLMOutputNotifier.remove_observer: self.observers.remove(observer) —
deletes the first matching reference, or raises ValueError (embedded as
Except.error with CPython's message) when the observer is absent. -/
def LLMOutputNotifier.remove_observer [DecidableEq L] (self : LLMOutputNotifier L)
    (observer : L) : Except String (LLMOutputNotifier L) :=
  match listRemove self.observers observer with
  | some l => Except.ok ⟨l⟩
  | none => Except.error "list.remove(x): x not in list"

/-- LLMOutputNotifier.notify: calls update(llm_output) on each observer in
list order; embedded as the trace of update calls, each recorded as the
pair (observer, payload). -/
def LLMOutputNotifier.notify (self : LLMOutputNotifier L) (llm_output : String) :
    List (L × String) :=
  self.observers.map (fun observer => (observer, llm_output))

/-! ## Strategy example (src/strategy.py)

A strategy object is embedded by its retrieve method, a function from
the query string to the document list. -/

/-- The RAGStrategy interface: one retrieve operation from a query to a
document list. -/
abbrev RAGStrategy : Type := String → List String

/-- NaiveRAG.retrieve: returns the fixed two-document list, ignoring the
query. -/
def NaiveRAG.retrieve (query : String) : List String :=
  ["Document 1: Basics of Python.", "Document 2: OOP in Python."]

/-- Python's substring test (the operator sub in s) on character lists:
true when sub occurs contiguously in s. -/
def hasSubstring : List Char → List Char → Bool
  | [], sub => sub.isEmpty
  | c :: rest, sub => List.isPrefixOf sub (c :: rest) || hasSubstring rest sub

/-- Python's substring operator "sub in s" for strings. -/
def strContains (s sub : String) : Bool :=
  hasSubstring s.data sub.data

/-- AdvancedRAG.retrieve: filters the fixed three-document candidate list
down to the documents containing the literal text "Design Patterns"; the
query argument is never used. -/
def AdvancedRAG.retrieve (query : String) : List String :=
  (["Document 1: Basics of Python.",
    "Document 2: Advanced Python Design Patterns.",
    "Document 3: Strategy Pattern in Depth."]).filter
    (fun doc => strContains doc "Design Patterns")

/-- The canonical Python repr of a string without special characters:
the text wrapped in single quotes (written via character code 39). -/
def pyStrRepr (s : String) : String :=
  String.mk [Char.ofNat 39] ++ s ++ String.mk [Char.ofNat 39]

/-- The Python repr of a list of plain strings, as produced by the
f-string interpolation of retrieved_docs in ChatBot.get_response:
comma-separated reprs in square brackets. -/
def pyListRepr (l : List String) : String :=
  "[" ++ strJoin ", " (l.map pyStrRepr) ++ "]"

/-- ChatBot: the context object holding the single active strategy. -/
structure ChatBot where
  strategy : RAGStrategy

/-- ChatBot.set_strategy: replaces the held strategy. -/
def ChatBot.set_strategy (self : ChatBot) (strategy : RAGStrategy) : ChatBot :=
  ⟨strategy⟩

/-- ChatBot.get_response: delegates retrieve(query) to the held strategy
and wraps the retrieved document list into the response f-string. -/
def ChatBot.get_response (self : ChatBot) (query : String) : String :=
  "Generated response based on: " ++ pyListRepr (self.strategy query)

/-! ## Claim theorems -/

/-- C1: with examples ("Q1","A1"), ("Q2","A2") and prompt "Q3", build()
returns the exact few-shot prompt text; in general, for every nonempty
example sequence, build() renders each example as the two lines
"Input: ..." / "Output: ...", joins examples by a blank line, and appends
"Input: <prompt>\nOutput:" with no output text. -/
theorem build_fewshot_format :
    fewShotB.build.prompt =
      "Input: Q1\nOutput: A1\n\nInput: Q2\nOutput: A2\n\nInput: Q3\nOutput:" ∧
    ∀ b : QueryBuilder, b.examples ≠ [] →
      b.build.prompt =
        specExampleBlock b.examples ++ "\n\nInput: " ++ b.prompt ++ "\nOutput:" := by
  constructor
  · decide
  · intro b h
    obtain ⟨e, es, hbe⟩ := List.exists_cons_of_ne_nil h
    have hj := strJoin_eq_specExampleBlock (e :: es)
    simp only [List.map_cons] at hj
    simp [QueryBuilder.build, hbe, hj]

/-- Witness for C1 at the few-shot sample builder. -/
theorem build_fewshot_format_witness :
    fewShotB.examples ≠ [] ∧
    fewShotB.build.prompt =
      specExampleBlock fewShotB.examples ++ "\n\nInput: " ++ fewShotB.prompt ++ "\nOutput:" :=
  ⟨by decide, build_fewshot_format.2 fewShotB (by decide)⟩

/-- C2: whenever the target exposes a method under the requested name,
the adapter's query returns exactly what calling that method directly
with the same text returns. -/
theorem adapter_query_delegates {A : Type} (model : String → Option (String → A))
    (query_method : String) (f : String → A) (text : String)
    (h : model query_method = some f) :
    (ModelAdapter.mk model query_method).query text = Except.ok (f text) := by
  simp [ModelAdapter.query, h]

/-- Witness for C2 at the OpenAI model adapted under the name "query". -/
theorem adapter_query_delegates_witness :
    (OpenAIModel.mk "gpt-4o").attrs "query" = some (OpenAIModel.mk "gpt-4o").query ∧
    (ModelAdapter.mk (OpenAIModel.mk "gpt-4o").attrs "query").query "What is Python?" =
      Except.ok ((OpenAIModel.mk "gpt-4o").query "What is Python?") :=
  ⟨rfl, adapter_query_delegates (OpenAIModel.mk "gpt-4o").attrs "query"
      (OpenAIModel.mk "gpt-4o").query "What is Python?" rfl⟩

/-- C3: when the target does not expose the requested method name, the
adapter's query fails with the missing-capability (AttributeError) error
and never returns an ok value. -/
theorem adapter_query_missing_raises {A : Type} (model : String → Option (String → A))
    (query_method text : String) (h : model query_method = none) :
    (ModelAdapter.mk model query_method).query text =
        Except.error ("AttributeError: missing capability " ++ query_method) ∧
    ∀ v : A, (ModelAdapter.mk model query_method).query text ≠ Except.ok v := by
  constructor
  · simp [ModelAdapter.query, h]
  · intro v hv
    simp [ModelAdapter.query, h] at hv

/-- Witness for C3 at the HuggingFace model, which exposes "generate"
but not "query". -/
theorem adapter_query_missing_raises_witness :
    (HuggingFaceModel.mk "Mistral7b" "bitsandbytes").attrs "query" = none ∧
    (ModelAdapter.mk (HuggingFaceModel.mk "Mistral7b" "bitsandbytes").attrs "query").query
        "What is Python?" =
      Except.error ("AttributeError: missing capability " ++ "query") :=
  ⟨rfl, (adapter_query_missing_raises
      (HuggingFaceModel.mk "Mistral7b" "bitsandbytes").attrs "query" "What is Python?" rfl).1⟩

/-- C4: on a fresh notifier, after add_observer(L1) then add_observer(L2),
notify(X) calls update(X) on L1 then on L2 with the same payload; after
remove_observer(L1) succeeds with registry [L2], notify(Y) calls
update(Y) on L2 only. -/
theorem notifier_add_notify_remove_order (L : Type) [DecidableEq L]
    (L1 L2 : L) (X Y : String) :
    (((LLMOutputNotifier.init).add_observer L1).add_observer L2).notify X =
        [(L1, X), (L2, X)] ∧
    (((LLMOutputNotifier.init).add_observer L1).add_observer L2).remove_observer L1 =
        Except.ok ⟨[L2]⟩ ∧
    (LLMOutputNotifier.mk [L2]).notify Y = [(L2, Y)] := by
  refine ⟨rfl, ?_, rfl⟩
  simp [LLMOutputNotifier.init, LLMOutputNotifier.add_observer,
    LLMOutputNotifier.remove_observer, listRemove]

/-- C5: AdvancedRAG.retrieve returns, for every query, the same
single-element list holding the one candidate containing the substring
"Design Patterns"; the query content is ignored. -/
theorem advanced_rag_retrieve_fixed :
    (∀ q : String, AdvancedRAG.retrieve q =
        ["Document 2: Advanced Python Design Patterns."]) ∧
    (∀ q1 q2 : String, AdvancedRAG.retrieve q1 = AdvancedRAG.retrieve q2) ∧
    strContains "Document 2: Advanced Python Design Patterns." "Design Patterns" = true :=
  ⟨fun _ => rfl, fun _ _ => rfl, by decide⟩

/-- C6: a ChatBot holds one strategy; after set_strategy(S), every
subsequent get_response(q) delegates retrieve(q) verbatim to S and wraps
the result as "Generated response based on: " followed by the retrieved
list, while get_response before the swap uses the previously held
strategy. -/
theorem chatbot_single_strategy_delegation :
    (∀ (bot : ChatBot) (S : RAGStrategy) (q : String),
        (bot.set_strategy S).get_response q =
          "Generated response based on: " ++ pyListRepr (S q)) ∧
    (∀ (bot : ChatBot) (q : String),
        bot.get_response q =
          "Generated response based on: " ++ pyListRepr (bot.strategy q)) ∧
    (∀ (bot : ChatBot) (S : RAGStrategy), (bot.set_strategy S).strategy = S) :=
  ⟨fun _ _ _ => rfl, fun _ _ => rfl, fun _ _ => rfl⟩

theorem build_temperature_eq (b : QueryBuilder) :
    b.build.temperature = b.temperature := by
  unfold QueryBuilder.build
  split <;> rfl

theorem listRemove_not_mem {L : Type} [DecidableEq L] {l : List L} {o : L}
    (h : o ∉ l) : listRemove l o = none := by
  induction l with
  | nil => rfl
  | cons x xs ih =>
      simp only [List.mem_cons, not_or] at h
      simp only [listRemove, if_neg (Ne.symm h.1), ih h.2, Option.map_none']

theorem listRemove_first {L : Type} [DecidableEq L] (l1 l2 : List L) (o : L)
    (h : o ∉ l1) : listRemove (l1 ++ o :: l2) o = some (l1 ++ l2) := by
  induction l1 with
  | nil => simp [listRemove]
  | cons x xs ih =>
      simp only [List.mem_cons, not_or] at h
      simp only [List.cons_append, listRemove, List.append_eq, if_neg (Ne.symm h.1),
        ih h.2, Option.map_some']

/-- C7: remove_observer deletes exactly the first occurrence of the given
listener from the registry, preserving the order of the rest (so a
listener added twice remains once after a single removal); removing an
absent listener raises the ValueError (not-found) error. -/
theorem remove_observer_first_match :
    (∀ (L : Type) [DecidableEq L] (l1 l2 : List L) (o : L), o ∉ l1 →
        (LLMOutputNotifier.mk (l1 ++ o :: l2)).remove_observer o =
          Except.ok ⟨l1 ++ l2⟩) ∧
    (∀ (L : Type) [DecidableEq L] (l : List L) (o : L), o ∉ l →
        (LLMOutputNotifier.mk l).remove_observer o =
          Except.error "list.remove(x): x not in list") := by
  constructor
  · intro L _ l1 l2 o h
    simp [LLMOutputNotifier.remove_observer, listRemove_first l1 l2 o h]
  · intro L _ l o h
    simp [LLMOutputNotifier.remove_observer, listRemove_not_mem h]

/-- Witness for C7: first-occurrence removal with order preserved, the
duplicate case, and the not-found error, on Nat listeners. -/
theorem remove_observer_first_match_witness :
    ((0 : Nat) ∉ [1] ∧
      (LLMOutputNotifier.mk ([1] ++ 0 :: [2])).remove_observer 0 =
        Except.ok ⟨[1] ++ [2]⟩) ∧
    ((0 : Nat) ∉ ([] : List Nat) ∧
      (LLMOutputNotifier.mk ([] ++ 0 :: [0])).remove_observer 0 =
        Except.ok ⟨[] ++ [0]⟩) ∧
    ((2 : Nat) ∉ [1] ∧
      (LLMOutputNotifier.mk [1]).remove_observer 2 =
        Except.error "list.remove(x): x not in list") :=
  ⟨⟨by decide, remove_observer_first_match.1 Nat [1] [2] 0 (by decide)⟩,
   ⟨by decide, remove_observer_first_match.1 Nat [] [0] 0 (by decide)⟩,
   ⟨by decide, remove_observer_first_match.2 Nat [1] 2 (by decide)⟩⟩

/-- C8: with an empty example sequence, build() returns a Query whose
prompt text is exactly the value last passed to set_prompt, with no text
added. -/
theorem build_zero_examples_verbatim (b : QueryBuilder) (p : String)
    (h : b.examples = []) : ((b.set_prompt p).build).prompt = p := by
  simp [QueryBuilder.set_prompt, QueryBuilder.build, h]

/-- Witness for C8 at the fresh builder and the no-shot sample prompt. -/
theorem build_zero_examples_verbatim_witness :
    QueryBuilder.init.examples = [] ∧
    ((QueryBuilder.init.set_prompt "What is the capital of France?").build).prompt =
      "What is the capital of France?" :=
  ⟨rfl, build_zero_examples_verbatim QueryBuilder.init "What is the capital of France?" rfl⟩

/-- C9: build() does not modify the assembler's state (its state-passing
form returns self unchanged), so two consecutive builds return equal
Queries, while a setter or add_example call between two builds makes the
second build reflect the mutated state. -/
theorem build_reads_but_does_not_mutate :
    (∀ b : QueryBuilder, b.buildS.2 = b) ∧
    (∀ b : QueryBuilder, (b.buildS.2).buildS.1 = b.buildS.1) ∧
    (∀ (b : QueryBuilder) (t : ℚ),
        (((b.buildS.2).set_temperature t).build).temperature = t) ∧
    (∀ (b : QueryBuilder) (p : String),
        ((b.buildS.2).set_prompt p).build = (b.set_prompt p).build) ∧
    (∀ (b : QueryBuilder) (i o : String),
        ((b.buildS.2).add_example i o).build = (b.add_example i o).build) := by
  refine ⟨fun _ => rfl, fun _ => rfl, fun b t => ?_, fun _ _ => rfl, fun _ _ _ => rfl⟩
  rw [build_temperature_eq]
  rfl

/-- C10: a freshly constructed QueryBuilder has prompt "", temperature
1.0, max_tokens 100 and no examples, so building it immediately yields
Query("", 1.0, 100). -/
theorem querybuilder_init_defaults :
    QueryBuilder.init.prompt = "" ∧
    QueryBuilder.init.temperature = 1 ∧
    QueryBuilder.init.max_tokens = 100 ∧
    QueryBuilder.init.examples = [] ∧
    QueryBuilder.init.build = Query.mk "" 1 100 :=
  ⟨rfl, rfl, rfl, rfl, rfl⟩
